import Mathlib

/-!
Verification of the chat client core: the conversation session controller
(`useChat` in `composables/useChat.ts`), the remote answering client
(`APIProvider` in `providers/apiProvider.ts`), the conversation storage
(`utils/storage.ts`) and the citation-extraction part of the content
rendering pipeline (`extractCitations` in `components/MarkdownRenderer.vue`).

The TypeScript code is shallowly embedded: strings are `String`, JS arrays
are `List`, values that may be `undefined`/`null` at runtime are `Option`,
promise settlement of a remote call is passed in as an explicit
`Except`/outcome argument, and `localStorage` plus the log of
`saveConversation` calls are carried in an explicit state record.
All scanners are written with a fuel argument equal to the input length so
that every definition is executable by kernel reduction.
-/

/-! ## Content rendering pipeline: citation extraction

Embeds `extractCitations` of `MarkdownRenderer.vue` (lines 120-153):

```
const citationPattern = /\x5b(\d+)\x5d[\s]*(?:\(([^)]+)\))?/g;
const urlPattern = /https?:\/\/[^\s]+/g;
const urls = content.match(urlPattern) || [];
while ((match = citationPattern.exec(content)) !== null) {
  const id = parseInt(match[1]);
  const url = match[2] || urls[id - 1] || "#";
  let domain = ""; let title = `Source ` + id;
  try { domain = new URL(url).hostname.replace("www.", ""); title = domain; }
  catch { domain = "Unknown"; }
  citations.push({ id, url, title, domain });
}
```
-/

/-- The display record built per citation marker (`interface Citation`). -/
structure Citation where
  id : Nat
  url : String
  title : String
  domain : String
deriving DecidableEq, Repr

/-- JavaScript's `\s` character class (the code points relevant here). -/
def jsWhitespace (c : Char) : Bool :=
  c = ' ' || c = '\t' || c = '\n' || c = '\r' ||
  c.toNat = 0x0B || c.toNat = 0x0C || c.toNat = 0xA0 || c.toNat = 0x1680 ||
  (0x2000 ≤ c.toNat && c.toNat ≤ 0x200A) ||
  c.toNat = 0x2028 || c.toNat = 0x2029 || c.toNat = 0x202F ||
  c.toNat = 0x205F || c.toNat = 0x3000 || c.toNat = 0xFEFF

/-- `parseInt` on a nonempty run of ASCII digits. -/
def digitsToNat (ds : List Char) : Nat :=
  ds.foldl (fun a c => a * 10 + (c.toNat - 48)) 0

/-- One attempt of the bare-URL regex `https?:\/\/[^\s]+` at the current
position: on success returns the matched URL (as chars) and the rest of
the input after the match. -/
def urlMatchAt (cs : List Char) : Option (List Char × List Char) :=
  match cs with
  | 'h' :: 't' :: 't' :: 'p' :: 's' :: ':' :: '/' :: '/' :: rest =>
    let body := rest.takeWhile (fun c => !jsWhitespace c)
    if body.isEmpty then none
    else some (('h' :: 't' :: 't' :: 'p' :: 's' :: ':' :: '/' :: '/' :: body),
               rest.dropWhile (fun c => !jsWhitespace c))
  | 'h' :: 't' :: 't' :: 'p' :: ':' :: '/' :: '/' :: rest =>
    let body := rest.takeWhile (fun c => !jsWhitespace c)
    if body.isEmpty then none
    else some (('h' :: 't' :: 't' :: 'p' :: ':' :: '/' :: '/' :: body),
               rest.dropWhile (fun c => !jsWhitespace c))
  | _ => none

/-- Global scan of `content.match(/https?:\/\/[^\s]+/g)`: leftmost matches,
non-overlapping, greedy.  Fuel-driven; every step consumes at least one
character, so fuel = input length suffices. -/
def scanUrlsAux : Nat → List Char → List (List Char)
  | 0, _ => []
  | Nat.succ fuel, cs =>
    match cs with
    | [] => []
    | c :: rest =>
      match urlMatchAt (c :: rest) with
      | some (u, rest') => u :: scanUrlsAux fuel rest'
      | none => scanUrlsAux fuel rest

/-- All bare URLs of the raw text, in document order (`const urls = ...`). -/
def bareUrls (content : String) : List String :=
  (scanUrlsAux content.data.length content.data).map (fun l => String.mk l)

/-- One attempt of the citation-marker regex
`\x5b(\d+)\x5d[\s]*(?:\(([^)]+)\))?` at the current position: on success
returns the marker number, the optional parenthesised URL, and the rest of
the input after the full match (the greedy `[\s]*` is part of the match
even when the parenthesised group fails). -/
def citMatchAt (cs : List Char) : Option (Nat × Option String × List Char) :=
  match cs with
  | '[' :: rest =>
    let ds := rest.takeWhile Char.isDigit
    if ds.isEmpty then none
    else
      match rest.dropWhile Char.isDigit with
      | ']' :: rest2 =>
        let rest3 := rest2.dropWhile jsWhitespace
        match rest3 with
        | '(' :: rest4 =>
          let inner := rest4.takeWhile (fun c => c ≠ ')')
          if inner.isEmpty then some (digitsToNat ds, none, rest3)
          else
            match rest4.dropWhile (fun c => c ≠ ')') with
            | ')' :: rest5 => some (digitsToNat ds, some (String.mk inner), rest5)
            | _ => some (digitsToNat ds, none, rest3)
        | _ => some (digitsToNat ds, none, rest3)
      | _ => none
  | _ => none

/-- Global scan of the citation-marker regex (`citationPattern.exec` loop). -/
def scanCitsAux : Nat → List Char → List (Nat × Option String)
  | 0, _ => []
  | Nat.succ fuel, cs =>
    match cs with
    | [] => []
    | c :: rest =>
      match citMatchAt (c :: rest) with
      | some (n, paren, rest') => (n, paren) :: scanCitsAux fuel rest'
      | none => scanCitsAux fuel rest

/-- All `[n]` markers of the raw text in document order, paired with their
explicit parenthesised URL when one immediately follows. -/
def scanCitationMarkers (content : String) : List (Nat × Option String) :=
  scanCitsAux content.data.length content.data

/-- Model of `new URL(url).hostname` for `http:`/`https:` URLs: the
authority runs to the first `/`, `?` or `#`; user-info up to the last `@`
is dropped; a `:port` suffix is dropped; the host must be nonempty and
consist of ASCII letters, digits, `.`, `-` or `_`, and is lower-cased.
Other schemes and hosts outside this shape are modelled as a parse
failure (`none`), which is what the surrounding `try`/`catch` observes. -/
def urlHostname (url : String) : Option String :=
  let afterScheme : Option (List Char) :=
    match url.data with
    | 'h' :: 't' :: 't' :: 'p' :: 's' :: ':' :: '/' :: '/' :: rest => some rest
    | 'h' :: 't' :: 't' :: 'p' :: ':' :: '/' :: '/' :: rest => some rest
    | _ => none
  match afterScheme with
  | none => none
  | some rest =>
    let authority := rest.takeWhile (fun c => c ≠ '/' && c ≠ '?' && c ≠ '#')
    let afterUser := (authority.reverse.takeWhile (fun c => c ≠ '@')).reverse
    let host := afterUser.takeWhile (fun c => c ≠ ':')
    if host.isEmpty then none
    else if host.all (fun c => c.isAlphanum || c = '.' || c = '-' || c = '_') then
      some (String.mk (host.map Char.toLower))
    else none

/-- `hostname.replace("www.", "")`: removes the first occurrence of
`"www."` anywhere in the string (JS `String.replace` with a string
pattern replaces only the first occurrence, not only a leading one). -/
def stripFirstWWWAux : List Char → List Char
  | 'w' :: 'w' :: 'w' :: '.' :: rest => rest
  | c :: rest => c :: stripFirstWWWAux rest
  | [] => []

/-- String version of `stripFirstWWWAux`. -/
def stripFirstWWWStr (s : String) : String :=
  String.mk (stripFirstWWWAux s.data)

/-- The spec's words, for comparison: "Domain is the URL host with a
leading \"www.\" stripped" — strip `"www."` only when it is a prefix. -/
def specStripLeadingWWW (s : String) : String :=
  match s.data with
  | 'w' :: 'w' :: 'w' :: '.' :: rest => String.mk rest
  | _ => s

/-- `match[2] || urls[id - 1] || "#"`: the explicit parenthesised URL if
present, else the `n`-th bare URL (1-based; `urls[-1]` is `undefined` in
JS when `n = 0`), else `"#"`. -/
def resolveUrl (urls : List String) (n : Nat) (paren : Option String) : String :=
  match paren with
  | some u => u
  | none =>
    match n with
    | 0 => "#"
    | Nat.succ k => (urls.get? k).getD "#"

/-- The body of the `while` loop: build one `Citation` from a marker. -/
def buildCitation (urls : List String) (n : Nat) (paren : Option String) : Citation :=
  match urlHostname (resolveUrl urls n paren) with
  | some h =>
    { id := n, url := resolveUrl urls n paren,
      title := stripFirstWWWStr h, domain := stripFirstWWWStr h }
  | none =>
    { id := n, url := resolveUrl urls n paren,
      title := "Source " ++ toString n, domain := "Unknown" }

/-- `extractCitations` of `MarkdownRenderer.vue`: one citation per marker
occurrence, in document order. -/
def extractCitations (content : String) : List Citation :=
  (scanCitationMarkers content).map (fun m => buildCitation (bareUrls content) m.1 m.2)

/-! ## Data model (`types.ts`) -/

/-- `interface Model` (the provider union type is embedded as `String`). -/
structure Model where
  id : String
  name : String
  provider : String
  description : Option String
deriving DecidableEq, Repr

/-- `interface ThinkingStep` (the `any`-typed `metadata` map is omitted;
no claim inspects it). -/
structure ThinkingStep where
  type : String
  title : String
  content : String
  timestamp : String
  duration_ms : Option Nat
deriving DecidableEq, Repr

/-- `interface Message` — one Turn. `role` is one of
`"user"`, `"assistant"`, `"system"`. -/
structure Message where
  id : String
  role : String
  content : String
  timestamp : String
  thinkingSteps : Option (List ThinkingStep)
deriving DecidableEq, Repr

/-- `interface Conversation`.  The TypeScript declaration types `model` as
a required `Model`, but `createNewConversation(availableModels.value[0])`
stores `undefined` there when no model has been discovered, so the
runtime value is embedded as `Option Model`. -/
structure Conversation where
  id : String
  messages : List Message
  model : Option Model
  createdAt : String
  updatedAt : String
deriving DecidableEq, Repr

/-- `interface ChatResponse` returned by the provider. -/
structure ChatResponse where
  content : String
  error : Option String
  thinkingSteps : Option (List ThinkingStep)
deriving DecidableEq, Repr

/-- `interface Tool` of `apiProvider.ts` (the `any`-typed `schema` is
omitted; no claim inspects it). -/
structure Tool where
  id : String
  name : String
  description : String
  category : String
  icon : String
deriving DecidableEq, Repr

/-! ## Remote answering client (`APIProvider` in `apiProvider.ts`) -/

/-- The capability catalogs an initialised `APIProvider` instance holds. -/
structure ProviderState where
  models : List Model
  tools : List Tool
deriving DecidableEq, Repr

/-- `APIProvider.initialize()`: `Promise.all([loadModels(), loadTools()])`.
The two fetch outcomes are passed in as `Except` values (the error is the
thrown `Error`'s message).  `Promise.all` rejects as soon as either input
rejects and `initialize` rethrows, so the call succeeds exactly when both
catalogs load.  (When both reject, `Promise.all` carries whichever
rejection settled first; the model picks the models error — no claim
depends on which message is kept.) -/
def apiInitialize (modelsResult : Except String (List Model))
    (toolsResult : Except String (List Tool)) : Except String ProviderState :=
  match modelsResult, toolsResult with
  | Except.ok ms, Except.ok ts => Except.ok ⟨ms, ts⟩
  | Except.error e, _ => Except.error e
  | _, Except.error e => Except.error e

/-- The request body `APIProvider.sendMessage`/`sendSimpleMessage` posts.
`simple` is `POST /chat/simple` (one user message, no history), `history`
is `POST /chat`.  The float-valued sampling fields (`temperature`,
`max_tokens`) are omitted; the tool flags are written exactly as the code
does: `use_tools: true` and `tools_enabled: true` are hard-coded. -/
inductive ApiRequest where
  | simple (message : String) (model : String) (provider : String) (use_tools : Bool)
  | history (messages : List (String × String)) (model : String) (provider : String)
      (tools_enabled : Bool)
deriving DecidableEq, Repr

/-- The tool flag carried by a request (`use_tools` resp. `tools_enabled`). -/
def ApiRequest.toolFlag : ApiRequest → Bool
  | ApiRequest.simple _ _ _ u => u
  | ApiRequest.history _ _ _ t => t

/-- `APIProvider.sendMessage` path selection and request construction:
`messages.length === 1 && messages[0].role === 'user'` takes the
single-shot endpoint, everything else the history endpoint.  The received
`options` argument (carrying `toolsEnabled`) is not consulted anywhere. -/
def buildApiRequest (messages : List Message) (model : Model) : ApiRequest :=
  match messages with
  | [m] =>
    if m.role = "user" then
      ApiRequest.simple m.content model.id model.provider true
    else
      ApiRequest.history (messages.map fun msg => (msg.role, msg.content))
        model.id model.provider true
  | _ =>
    ApiRequest.history (messages.map fun msg => (msg.role, msg.content))
      model.id model.provider true

/-- How one `sendMessage` backend round settles:
`fail` covers every throw inside the chosen branch — transport
rejection, non-ok status (`errorData.error || HTTP ...` becomes the
message) and malformed bodies whose field access throws;
`simpleOk`/`historyOk` carry `data.response` resp. `data.response.content`
(`none` when the field is missing/empty-string falsy) and
`data.thinking_steps`. -/
inductive ApiOutcome where
  | fail (msg : String)
  | simpleOk (response : Option String) (steps : Option (List ThinkingStep))
  | historyOk (content : Option String) (steps : Option (List ThinkingStep))
deriving DecidableEq, Repr

/-- JS `x || fallback` on an optional string (empty string is falsy). -/
def jsOrString (o : Option String) (fallback : String) : String :=
  match o with
  | some s => if s.isEmpty then fallback else s
  | none => fallback

/-- `messages.length === 1 && messages[0].role === 'user'`: the branch of
`APIProvider.sendMessage` that takes the single-shot endpoint. -/
def isSingleShot (messages : List Message) : Bool :=
  match messages with
  | [m] => m.role = "user"
  | _ => false

/-- The settlement of the promise returned by `APIProvider.sendMessage`
for a round over `messages` whose backend outcome is `outcome`.  On the
history path every failure reaches the outer `catch`, which returns a
normalised `ChatResponse` (the raw text only in the non-stored `error`
field), so that path always fulfils.  The single-shot branch, however,
is `return this.sendSimpleMessage(...)` without `await`: the `try` block
has already been exited when that inner promise settles, so a failure
there (rethrown by `sendSimpleMessage`) bypasses the `catch` and the
provider's promise rejects with the raw error message. -/
def apiSendMessage (messages : List Message) (outcome : ApiOutcome) :
    Except String ChatResponse :=
  match outcome with
  | ApiOutcome.fail e =>
    if isSingleShot messages then Except.error e
    else
      Except.ok
        { content := "Sorry, I encountered an error connecting to the AI service. Please try again.",
          error := some e, thinkingSteps := none }
  | ApiOutcome.simpleOk r steps =>
    Except.ok
      { content := jsOrString r "No response generated", error := none,
        thinkingSteps := some (steps.getD []) }
  | ApiOutcome.historyOk c steps =>
    Except.ok
      { content := jsOrString c "No response generated", error := none,
        thinkingSteps := some (steps.getD []) }

/-! ## Conversation session controller (`useChat` in `useChat.ts`) -/

/-- The controller's reactive state plus its persistence environment:
`storage` is the `localStorage` slot under `chat-app-conversation`, and
`persistLog` records every `ConversationStorage.saveConversation` call in
order (the JS write is fire-and-forget; failures are caught and logged). -/
structure ChatState where
  provider : Option ProviderState
  conversation : Option Conversation
  isLoading : Bool
  connectionError : String
  isConnected : Bool
  availableTools : List Tool
  toolsEnabled : Bool
  storage : Option Conversation
  persistLog : List Conversation
deriving DecidableEq, Repr

/-- The `ref` initial values of `useChat()` with an empty storage slot. -/
def initialChatState : ChatState :=
  { provider := none, conversation := none, isLoading := false,
    connectionError := "", isConnected := false, availableTools := [],
    toolsEnabled := true, storage := none, persistLog := [] }

/-- `ConversationStorage.saveConversation`: serialise into the well-known
key; also recorded in the persist log. -/
def saveConv (st : ChatState) (c : Conversation) : ChatState :=
  { st with storage := some c, persistLog := st.persistLog ++ [c] }

/-- `availableModels` computed property: `provider.getAvailableModels()`
or `[]`. -/
def availableModelsOf (st : ChatState) : List Model :=
  match st.provider with
  | some p => p.models
  | none => []

/-- JS `String.prototype.trim`: strip `\s` characters from both ends. -/
def jsTrim (s : String) : String :=
  String.mk (((s.data.dropWhile jsWhitespace).reverse.dropWhile jsWhitespace).reverse)

/-- `initializeProvider()`: construct an `APIProvider`, `initialize()` it,
run `healthCheck()`, and either connect (caching models and tools) or
catch any failure into `connectionError`, leaving the session
disconnected with no provider and no tools. -/
def initializeProvider (st : ChatState) (modelsResult : Except String (List Model))
    (toolsResult : Except String (List Tool)) (healthy : Bool) : ChatState :=
  match apiInitialize modelsResult toolsResult with
  | Except.error e =>
    { st with
      connectionError := "Failed to connect to API server: " ++ e,
      isConnected := false, provider := none, availableTools := [] }
  | Except.ok p =>
    if healthy then
      { st with
        connectionError := "", provider := some p,
        availableTools := p.tools, isConnected := true }
    else
      { st with
        connectionError := "Failed to connect to API server: API server health check failed",
        isConnected := false, provider := none, availableTools := [] }

/-- `loadOrCreateConversation()`: restore the stored conversation, or
create a fresh one via `ConversationStorage.createNewConversation` with
`availableModels.value[0]` — which is `undefined` when no models were
discovered.  `newId`/`now` stand for `generateId()` and
`new Date().toISOString()`. -/
def loadOrCreateConversation (st : ChatState) (newId now : String) : ChatState :=
  match st.storage with
  | some c => { st with conversation := some c }
  | none =>
    let fresh : Conversation :=
      { id := newId, messages := [], model := (availableModelsOf st).head?,
        createdAt := now, updatedAt := now }
    { st with conversation := some fresh }

/-- `initialize()`: `await initializeProvider(); loadOrCreateConversation()`. -/
def chatInitialize (st : ChatState) (modelsResult : Except String (List Model))
    (toolsResult : Except String (List Tool)) (healthy : Bool)
    (newId now : String) : ChatState :=
  loadOrCreateConversation (initializeProvider st modelsResult toolsResult healthy) newId now

/-- `sendMessage(content)` of `useChat.ts`.  The settlement of
`provider.value.sendMessage(...)` is passed in as `result`; `uid`, `aid`,
`t1`, `t2` stand for the generated message ids and timestamps.  The guard
mirrors
`if (isLoading.value || !content.trim() || !provider.value || !conversation.value || !isConnected.value) return`.
On fulfilment an assistant turn with `response.content` is appended; on
rejection the `catch` appends a turn embedding the thrown message.  Each
append is followed by a `saveConversation` call, and `isLoading` is reset
in `finally`. -/
def useChatSendMessage (st : ChatState) (text : String)
    (result : Except String ChatResponse) (uid aid t1 t2 : String) : ChatState :=
  match st.conversation, st.provider with
  | some conv, some _ =>
    if st.isLoading = true ∨ jsTrim text = "" ∨ st.isConnected = false then st
    else
      let userMsg : Message :=
        { id := uid, role := "user", content := jsTrim text, timestamp := t1,
          thinkingSteps := none }
      let conv1 := { conv with messages := conv.messages ++ [userMsg] }
      let st1 := saveConv { st with isLoading := true, conversation := some conv1 } conv1
      match result with
      | Except.ok resp =>
        let aMsg : Message :=
          { id := aid, role := "assistant", content := resp.content, timestamp := t2,
            thinkingSteps := resp.thinkingSteps }
        let conv2 := { conv1 with messages := conv1.messages ++ [aMsg] }
        let st2 := saveConv { st1 with conversation := some conv2 } conv2
        { st2 with isLoading := false }
      | Except.error e =>
        let aMsg : Message :=
          { id := aid, role := "assistant",
            content := "Sorry, I encountered an error: " ++ e, timestamp := t2,
            thinkingSteps := none }
        let conv2 := { conv1 with messages := conv1.messages ++ [aMsg] }
        let st2 := saveConv { st1 with conversation := some conv2 } conv2
        { st2 with isLoading := false }
  | _, _ => st

/-- The turn list `useChat.sendMessage` hands to the provider:
`[...conversation.value.messages, userMessage]` (empty when no
conversation exists — the guard drops that call anyway). -/
def sentHistory (st : ChatState) (text uid t1 : String) : List Message :=
  match st.conversation with
  | some conv =>
    conv.messages ++
      [{ id := uid, role := "user", content := jsTrim text, timestamp := t1,
         thinkingSteps := none }]
  | none => []

/-- The composition the app actually runs: `useChat.sendMessage` awaiting
`APIProvider.sendMessage` over the sent turn history.  A history-path
failure arrives as a fulfilled, normalised response; a single-shot
failure arrives as a rejection (the un-awaited `return` in the provider)
and lands in the controller's `catch`, which interpolates the raw
message into the stored turn. -/
def sendMessageVia (st : ChatState) (text : String) (outcome : ApiOutcome)
    (uid aid t1 t2 : String) : ChatState :=
  useChatSendMessage st text (apiSendMessage (sentHistory st text uid t1) outcome)
    uid aid t1 t2

/-- The backend request a (non-blocked) `sendMessage(text)` call issues:
the full turn history including the fresh user turn, against the active
model.  `none` when the guard drops the call or when the conversation has
no model (in which case building the body throws inside the provider's
`try` and no request is sent). -/
def requestForSend (st : ChatState) (text : String) (uid t1 : String) : Option ApiRequest :=
  match st.conversation, st.provider with
  | some conv, some _ =>
    if st.isLoading = true ∨ jsTrim text = "" ∨ st.isConnected = false then none
    else
      match conv.model with
      | some m =>
        some (buildApiRequest
          (conv.messages ++
            [{ id := uid, role := "user", content := jsTrim text, timestamp := t1,
               thinkingSteps := none }]) m)
      | none => none
  | _, _ => none

/-- `changeModel(newModel)`: replace the active model, persist, append one
system notification turn, persist again. -/
def changeModel (st : ChatState) (m : Model) (nid t : String) : ChatState :=
  match st.conversation with
  | none => st
  | some conv =>
    let conv1 := { conv with model := some m }
    let st1 := saveConv { st with conversation := some conv1 } conv1
    let noticeMsg : Message :=
      { id := nid, role := "system",
        content := "Switched to " ++ m.name ++ " (" ++ m.provider ++ ")",
        timestamp := t, thinkingSteps := none }
    let conv2 := { conv1 with messages := conv1.messages ++ [noticeMsg] }
    saveConv { st1 with conversation := some conv2 } conv2

/-- `clearChat()`: empty the message list and persist. -/
def clearChat (st : ChatState) : ChatState :=
  match st.conversation with
  | none => st
  | some conv =>
    let conv1 := { conv with messages := [] }
    saveConv { st with conversation := some conv1 } conv1

/-- `toggleTools()`: flip the flag. -/
def toggleTools (st : ChatState) : ChatState :=
  { st with toolsEnabled := !st.toolsEnabled }

/-! ## Concrete fixtures used by witnesses and counterexamples -/

/-- A model as served by `GET /models`. -/
def exModel : Model :=
  { id := "gpt-4o-mini", name := "GPT-4o Mini", provider := "openai", description := none }

/-- A fresh conversation holding `exModel`. -/
def exConv : Conversation :=
  { id := "conv-1", messages := [], model := some exModel,
    createdAt := "2024-01-01T00:00:00Z", updatedAt := "2024-01-01T00:00:00Z" }

/-- A provider that discovered one model and no tools. -/
def exProviderState : ProviderState := { models := [exModel], tools := [] }

/-- A connected, idle session whose tools toggle has been switched off. -/
def exStateReady : ChatState :=
  { provider := some exProviderState, conversation := some exConv,
    isLoading := false, connectionError := "", isConnected := true,
    availableTools := [], toolsEnabled := false, storage := some exConv,
    persistLog := [] }

/-- The same session while a request is in flight. -/
def exStateLoading : ChatState := { exStateReady with isLoading := true }

/-- A user turn from an earlier round. -/
def exMsgUser : Message :=
  { id := "m1", role := "user", content := "earlier question", timestamp := "t-1",
    thinkingSteps := none }

/-- The assistant's earlier answer. -/
def exMsgAssist : Message :=
  { id := "m2", role := "assistant", content := "earlier answer", timestamp := "t-2",
    thinkingSteps := none }

/-- A conversation already holding one exchange, so that the next send
takes the history path of the provider. -/
def exConvHist : Conversation :=
  { id := "conv-2", messages := [exMsgUser, exMsgAssist], model := some exModel,
    createdAt := "2024-01-01T00:00:00Z", updatedAt := "2024-01-01T00:00:00Z" }

/-- The connected, idle session holding that history. -/
def exStateHist : ChatState :=
  { exStateReady with conversation := some exConvHist, storage := some exConvHist }

/-! ## Helper lemmas about `buildCitation` -/

lemma buildCitation_id (urls : List String) (n : Nat) (paren : Option String) :
    (buildCitation urls n paren).id = n := by
  unfold buildCitation
  split <;> rfl

lemma buildCitation_url (urls : List String) (n : Nat) (paren : Option String) :
    (buildCitation urls n paren).url = resolveUrl urls n paren := by
  unfold buildCitation
  split <;> rfl

lemma buildCitation_domain_title (urls : List String) (n : Nat) (paren : Option String) :
    (∃ host, urlHostname (resolveUrl urls n paren) = some host ∧
      (buildCitation urls n paren).domain = stripFirstWWWStr host ∧
      (buildCitation urls n paren).title = (buildCitation urls n paren).domain) ∨
    (urlHostname (resolveUrl urls n paren) = none ∧
      (buildCitation urls n paren).domain = "Unknown" ∧
      (buildCitation urls n paren).title = "Source " ++ toString n) := by
  unfold buildCitation
  rcases hh : urlHostname (resolveUrl urls n paren) with _ | host
  · right
    exact ⟨rfl, rfl, rfl⟩
  · left
    exact ⟨host, rfl, rfl, rfl⟩

/-! ## Claim theorems -/

/-- C1: while a `sendMessage` request is in flight (`isLoading` set), and
likewise when the text is empty or whitespace or the session is not
connected, a `sendMessage` call is a complete no-op: the state — turn
sequence, storage, persist log, everything — is left unchanged, and the
call is not queued. -/
theorem sendMessage_blocked_is_noop (st : ChatState) (text : String)
    (result : Except String ChatResponse) (uid aid t1 t2 : String)
    (h : st.isLoading = true ∨ jsTrim text = "" ∨ st.isConnected = false) :
    useChatSendMessage st text result uid aid t1 t2 = st := by
  unfold useChatSendMessage
  cases h1 : st.conversation with
  | none => rfl
  | some conv =>
    cases h2 : st.provider with
    | none => rfl
    | some p => exact if_pos h

/-- Witness for C1: a second call while `Sending` leaves the state as is. -/
theorem sendMessage_blocked_is_noop_w :
    useChatSendMessage exStateLoading "hello"
      (Except.ok { content := "ok", error := none, thinkingSteps := none })
      "u1" "a1" "t1" "t2" = exStateLoading :=
  sendMessage_blocked_is_noop exStateLoading "hello"
    (Except.ok { content := "ok", error := none, thinkingSteps := none })
    "u1" "a1" "t1" "t2" (Or.inl rfl)

/-- C4 (refuted — code bug): after `initialize()` with failed capability
discovery and an empty storage slot, `loadOrCreateConversation` calls
`createNewConversation(availableModels.value[0])` on an empty model list,
creating a Conversation whose active model is `undefined` — despite
`createNewConversation`'s parameter being declared as a required `Model`.
This closed theorem evaluates the code at that failing input. -/
theorem initialize_failed_discovery_conversation_without_model :
    ∃ conv,
      (chatInitialize initialChatState
        (Except.error "Failed to load models: Service Unavailable")
        (Except.error "Failed to load tools: Service Unavailable")
        false "conv-1" "2024-01-01T00:00:00Z").conversation = some conv ∧
      conv.model = none := by
  exact ⟨_, rfl, rfl⟩

/-- C5 (refuted — code bug): the single-shot branch of
`APIProvider.sendMessage` is `return this.sendSimpleMessage(...)` without
`await` (inside the `try`), so when that round fails the rejection
settles after the `try` block was exited, bypasses the provider's
`catch` — despite `sendSimpleMessage`'s own comment that it rethrows "to
be handled by sendMessage" — and `useChat`'s `catch` stores
`"Sorry, I encountered an error: " ++ <raw message>`: the raw transport
text reaches the persisted Turn content.  The same failure on the
history path is normalised to the fixed summary, so the divergence is
exactly the missing `await`.  This closed theorem evaluates the embedded
code at both inputs: a fresh one-message conversation (single-shot) and
a conversation with prior history. -/
theorem single_shot_failure_stores_raw_error :
    (∃ conv',
      (sendMessageVia exStateReady "hi" (ApiOutcome.fail "Failed to fetch")
          "u1" "a1" "t1" "t2").conversation = some conv' ∧
      conv'.messages.map Message.content =
        ["hi", "Sorry, I encountered an error: Failed to fetch"]) ∧
    List.IsInfix "Failed to fetch".data
      ("Sorry, I encountered an error: Failed to fetch").data ∧
    (∃ conv',
      (sendMessageVia exStateHist "hi" (ApiOutcome.fail "Failed to fetch")
          "u1" "a1" "t1" "t2").conversation = some conv' ∧
      (conv'.messages.map Message.content).getLast? =
        some "Sorry, I encountered an error connecting to the AI service. Please try again.") :=
  ⟨⟨_, rfl, by decide⟩, by decide, ⟨_, rfl, by decide⟩⟩

/-- C6: capability discovery is all-or-nothing.  If either catalog fetch
fails, `APIProvider.initialize` (`Promise.all`) fails as a whole, and the
session surfaces no partial capability set: no provider, no tools, not
connected. -/
theorem discovery_all_or_nothing (st : ChatState)
    (modelsResult : Except String (List Model)) (toolsResult : Except String (List Tool))
    (healthy : Bool)
    (hfail : (∃ e, modelsResult = Except.error e) ∨ (∃ e, toolsResult = Except.error e)) :
    (∃ e, apiInitialize modelsResult toolsResult = Except.error e) ∧
    (initializeProvider st modelsResult toolsResult healthy).provider = none ∧
    (initializeProvider st modelsResult toolsResult healthy).availableTools = [] ∧
    (initializeProvider st modelsResult toolsResult healthy).isConnected = false := by
  rcases hfail with ⟨e, he⟩ | ⟨e, he⟩
  · subst he
    cases toolsResult with
    | ok ts => exact ⟨⟨e, rfl⟩, rfl, rfl, rfl⟩
    | error e2 => exact ⟨⟨e, rfl⟩, rfl, rfl, rfl⟩
  · subst he
    cases modelsResult with
    | ok ms => exact ⟨⟨e, rfl⟩, rfl, rfl, rfl⟩
    | error e' => exact ⟨⟨e', rfl⟩, rfl, rfl, rfl⟩

/-- Witness for C6: the tools fetch succeeds but the model fetch fails. -/
theorem discovery_all_or_nothing_w :
    (∃ e, apiInitialize (Except.error "Failed to load models: Bad Gateway") (Except.ok [])
        = Except.error e) ∧
    (initializeProvider initialChatState (Except.error "Failed to load models: Bad Gateway")
        (Except.ok []) true).provider = none ∧
    (initializeProvider initialChatState (Except.error "Failed to load models: Bad Gateway")
        (Except.ok []) true).availableTools = [] ∧
    (initializeProvider initialChatState (Except.error "Failed to load models: Bad Gateway")
        (Except.ok []) true).isConnected = false :=
  discovery_all_or_nothing initialChatState
    (Except.error "Failed to load models: Bad Gateway") (Except.ok []) true
    (Or.inl ⟨"Failed to load models: Bad Gateway", rfl⟩)

/-- C7: with a conversation present, `changeModel(m)` sets the active
model to `m` and appends exactly one system notification Turn at the end
(the previous turns and the conversation identity are untouched), and it
persists twice: once right after the model replacement, once after the
append. -/
theorem changeModel_one_system_turn (st : ChatState) (conv : Conversation) (m : Model)
    (nid t : String) (hconv : st.conversation = some conv) :
    ∃ conv',
      (changeModel st m nid t).conversation = some conv' ∧
      conv'.model = some m ∧
      conv'.messages = conv.messages ++
        [{ id := nid, role := "system",
           content := "Switched to " ++ m.name ++ " (" ++ m.provider ++ ")",
           timestamp := t, thinkingSteps := none }] ∧
      conv'.id = conv.id ∧ conv'.createdAt = conv.createdAt ∧
      (changeModel st m nid t).persistLog =
        st.persistLog ++ [{ conv with model := some m }, conv'] := by
  unfold changeModel
  rw [hconv]
  exact ⟨_, rfl, rfl, rfl, rfl, rfl, by simp [saveConv]⟩

/-- Witness for C7 on a concrete session. -/
theorem changeModel_one_system_turn_w :
    ∃ conv',
      (changeModel exStateReady exModel "n1" "t3").conversation = some conv' ∧
      conv'.model = some exModel ∧
      conv'.messages = exConv.messages ++
        [{ id := "n1", role := "system",
           content := "Switched to " ++ exModel.name ++ " (" ++ exModel.provider ++ ")",
           timestamp := "t3", thinkingSteps := none }] ∧
      conv'.id = exConv.id ∧ conv'.createdAt = exConv.createdAt ∧
      (changeModel exStateReady exModel "n1" "t3").persistLog =
        exStateReady.persistLog ++ [{ exConv with model := some exModel }, conv'] :=
  changeModel_one_system_turn exStateReady exConv exModel "n1" "t3" rfl

/-- C8: with a conversation present, `clearChat()` leaves it with zero
Turns and persists that state, while the conversation's id, model and
timestamps are unchanged. -/
theorem clearChat_empties_turns_only (st : ChatState) (conv : Conversation)
    (hconv : st.conversation = some conv) :
    ∃ conv',
      (clearChat st).conversation = some conv' ∧
      conv'.messages = [] ∧
      conv'.id = conv.id ∧ conv'.model = conv.model ∧
      conv'.createdAt = conv.createdAt ∧ conv'.updatedAt = conv.updatedAt ∧
      (clearChat st).storage = some conv' ∧
      (clearChat st).persistLog = st.persistLog ++ [conv'] := by
  unfold clearChat
  rw [hconv]
  exact ⟨_, rfl, rfl, rfl, rfl, rfl, rfl, rfl, rfl⟩

/-- Witness for C8 on a concrete session. -/
theorem clearChat_empties_turns_only_w :
    ∃ conv',
      (clearChat exStateReady).conversation = some conv' ∧
      conv'.messages = [] ∧
      conv'.id = exConv.id ∧ conv'.model = exConv.model ∧
      conv'.createdAt = exConv.createdAt ∧ conv'.updatedAt = exConv.updatedAt ∧
      (clearChat exStateReady).storage = some conv' ∧
      (clearChat exStateReady).persistLog = exStateReady.persistLog ++ [conv'] :=
  clearChat_empties_turns_only exStateReady exConv rfl

/-- C2 (counterexample): the code computes the domain with
`hostname.replace("www.", "")`, which removes the *first* occurrence of
`"www."` anywhere in the host, not only a leading one.  For the marker
`[1](https://en.www.ex.com/a)` the host is `en.www.ex.com`; the claim
(leading `"www."` stripped) predicts domain `en.www.ex.com`, but the code
produces `en.ex.com`. -/
theorem citation_domain_counterexample :
    (extractCitations "[1](https://en.www.ex.com/a)").map Citation.domain = ["en.ex.com"] ∧
    urlHostname "https://en.www.ex.com/a" = some "en.www.ex.com" ∧
    specStripLeadingWWW "en.www.ex.com" = "en.www.ex.com" ∧
    ("en.ex.com" : String) ≠ "en.www.ex.com" :=
  ⟨by decide, by decide, by decide, by decide⟩

/-- C2 (amended): each marker `[n]` resolves to its explicit parenthesised
URL when present, otherwise to the `n`-th bare URL (`resolveUrl`); when
the URL parses, the domain is the host with the first `"www."` occurrence
removed and the title equals the domain, and when it fails to parse the
domain is `"Unknown"` and the title is `"Source n"`.  In particular the
spec's worked example renders exactly as stated. -/
theorem extractCitations_marker_resolution (content : String) (i n : Nat)
    (paren : Option String)
    (h : (scanCitationMarkers content).get? i = some (n, paren)) :
    (∃ c, (extractCitations content).get? i = some c ∧ c.id = n ∧
      c.url = resolveUrl (bareUrls content) n paren ∧
      ((∃ host, urlHostname c.url = some host ∧
        c.domain = stripFirstWWWStr host ∧ c.title = c.domain) ∨
       (urlHostname c.url = none ∧ c.domain = "Unknown" ∧
        c.title = "Source " ++ toString n))) ∧
    extractCitations "See [1] and [2]. Sources: https://a.com/x https://b.org/y" =
      [⟨1, "https://a.com/x", "a.com", "a.com"⟩,
       ⟨2, "https://b.org/y", "b.org", "b.org"⟩] := by
  constructor
  · refine ⟨buildCitation (bareUrls content) n paren, ?_,
      buildCitation_id _ _ _, buildCitation_url _ _ _, ?_⟩
    · unfold extractCitations
      rw [List.get?_map, h]
      rfl
    · rw [buildCitation_url]
      exact buildCitation_domain_title _ _ _
  · decide

/-- Witness for C2 at a marker carrying an explicit parenthesised URL. -/
theorem extractCitations_marker_resolution_w :
    (∃ c, (extractCitations "[1](https://www.ex.com/a)").get? 0 = some c ∧ c.id = 1 ∧
      c.url = resolveUrl (bareUrls "[1](https://www.ex.com/a)") 1 (some "https://www.ex.com/a") ∧
      ((∃ host, urlHostname c.url = some host ∧
        c.domain = stripFirstWWWStr host ∧ c.title = c.domain) ∨
       (urlHostname c.url = none ∧ c.domain = "Unknown" ∧
        c.title = "Source " ++ toString 1))) ∧
    extractCitations "See [1] and [2]. Sources: https://a.com/x https://b.org/y" =
      [⟨1, "https://a.com/x", "a.com", "a.com"⟩,
       ⟨2, "https://b.org/y", "b.org", "b.org"⟩] :=
  extractCitations_marker_resolution "[1](https://www.ex.com/a)" 0 1
    (some "https://www.ex.com/a") (by decide)

/-- C3 (counterexample): one rendering pass neither sorts nor
de-duplicates the citation list — markers out of numeric order come out
in document order, and a repeated marker yields two citations with the
same number. -/
theorem citations_unsorted_dup_counterexample :
    ((extractCitations "[2] then [1]").map Citation.id = [2, 1] ∧
      ¬ List.Sorted (· ≤ ·) ((extractCitations "[2] then [1]").map Citation.id)) ∧
    ((extractCitations "[1] and [1]").map Citation.id = [1, 1] ∧
      ¬ ((extractCitations "[1] and [1]").map Citation.id).Nodup) := by
  refine ⟨⟨by decide, ?_⟩, ⟨by decide, ?_⟩⟩ <;> decide

/-- C3 (amended): the Citation list contains exactly one Citation per
marker occurrence, and its citation numbers follow the markers'
document order in the text (not ascending numeric order, with duplicate
numbers kept). -/
theorem extractCitations_document_order (content : String) :
    (extractCitations content).map Citation.id =
      (scanCitationMarkers content).map Prod.fst := by
  unfold extractCitations
  rw [List.map_map]
  congr 1
  funext m
  simp only [Function.comp_apply]
  exact buildCitation_id _ _ _

/-- C10: citation extraction never drops a marker (one Citation per
marker occurrence), and a marker `[n]` with no explicit parenthesised URL
and fewer than `n` bare URLs in the text still yields a Citation with url
`"#"`, title `"Source n"` and domain `"Unknown"`. -/
theorem extractCitations_total_with_fallback (content : String) :
    (extractCitations content).length = (scanCitationMarkers content).length ∧
    ∀ i n, (scanCitationMarkers content).get? i = some (n, none) →
      (bareUrls content).length < n →
      (extractCitations content).get? i =
        some { id := n, url := "#", title := "Source " ++ toString n, domain := "Unknown" } := by
  constructor
  · unfold extractCitations
    exact List.length_map _ _
  · intro i n h hn
    have hres : resolveUrl (bareUrls content) n none = "#" := by
      cases n with
      | zero => exact absurd hn (Nat.not_lt_zero _)
      | succ k =>
        have hk : (bareUrls content).get? k = none :=
          List.get?_eq_none.mpr (Nat.lt_succ_iff.mp hn)
        show ((bareUrls content).get? k).getD "#" = "#"
        rw [hk]
        rfl
    have hhash : urlHostname "#" = none := by decide
    have hb : buildCitation (bareUrls content) n none =
        { id := n, url := "#", title := "Source " ++ toString n, domain := "Unknown" } := by
      unfold buildCitation
      rw [hres, hhash]
    unfold extractCitations
    rw [List.get?_map, h]
    show some (buildCitation (bareUrls content) n none) = _
    rw [hb]

/-- Witness for C10: `[3]` in a text with no URL at all. -/
theorem extractCitations_total_with_fallback_w :
    (extractCitations "[3]").get? 0 =
      some { id := 3, url := "#", title := "Source " ++ toString 3, domain := "Unknown" } :=
  (extractCitations_total_with_fallback "[3]").2 0 3 (by decide) (by decide)

/-- Helper for C9: both request shapes carry a hard-coded `true` tool
flag (`use_tools: true` on `/chat/simple`, `tools_enabled: true` on
`/chat`). -/
lemma buildApiRequest_toolFlag (messages : List Message) (m : Model) :
    (buildApiRequest messages m).toolFlag = true := by
  unfold buildApiRequest
  rcases messages with _ | ⟨a, _ | ⟨b, l⟩⟩
  · rfl
  · dsimp only
    split <;> rfl
  · rfl

/-- C9 (counterexample): with the tools toggle switched off, the next
`sendMessage` still issues a request whose tool-use field is `true` — the
wire field does not equal the flag. -/
theorem request_flag_counterexample :
    exStateReady.toolsEnabled = false ∧
    requestForSend exStateReady "hi" "u1" "t1" =
      some (ApiRequest.simple "hi" "gpt-4o-mini" "openai" true) ∧
    ApiRequest.toolFlag (ApiRequest.simple "hi" "gpt-4o-mini" "openai" true)
      ≠ exStateReady.toolsEnabled :=
  ⟨rfl, by decide, by decide⟩

/-- C9 (amended): `toggleTools()` flips the flag (two calls restore the
state), and `useChat.sendMessage` passes it to the provider as
`options.toolsEnabled` — but `APIProvider.sendMessage` ignores its
options, so every request it issues carries tool flag `true` regardless
of the toggle. -/
theorem toggleTools_flips_request_flag_hardcoded :
    (∀ st, toggleTools (toggleTools st) = st) ∧
    (∀ st text uid t1 req, requestForSend st text uid t1 = some req →
      req.toolFlag = true) := by
  constructor
  · intro st
    cases st
    simp [toggleTools]
  · intro st text uid t1 req h
    obtain ⟨pr, cv, ld, ce, ic, avT, te, sg, pl⟩ := st
    rcases cv with _ | conv
    · rcases pr with _ | p <;> simp [requestForSend] at h
    rcases pr with _ | p
    · simp [requestForSend] at h
    simp only [requestForSend] at h
    by_cases hc : ld = true ∨ jsTrim text = "" ∨ ic = false
    · rw [if_pos hc] at h
      exact absurd h (by simp)
    · rw [if_neg hc] at h
      rcases hm : conv.model with _ | m
      · rw [hm] at h
        exact absurd h (by simp)
      · rw [hm] at h
        simp only [Option.some.injEq] at h
        rw [← h]
        exact buildApiRequest_toolFlag _ _

/-- Witness for C9's amended statement on a concrete session. -/
theorem toggleTools_flips_request_flag_hardcoded_w :
    toggleTools (toggleTools exStateReady) = exStateReady ∧
    ApiRequest.toolFlag (ApiRequest.simple "hi" "gpt-4o-mini" "openai" true) = true :=
  ⟨toggleTools_flips_request_flag_hardcoded.1 exStateReady,
   toggleTools_flips_request_flag_hardcoded.2 exStateReady "hi" "u1" "t1"
     (ApiRequest.simple "hi" "gpt-4o-mini" "openai" true) (by decide)⟩
